import Mathlib

/-!
Shallow embedding of the `contrastiverl_exploration` repository:
  * `src/default.py`            — `make_default_logger`, `make_wandb_logger`
  * `src/contrastive/wandb_logger.py` — `WandbLogger`
  * `src/contrastive/agents.py` — `DistributedContrastive.__init__`

Python dictionaries of metrics are embedded as association lists
`List (String × Option Int)` (a `none` value embeds Python `None`);
times and rates are embedded as rationals; the opaque framework objects
(environment factories, network factories, serialize functions, …) are
embedded as `Nat` tokens, since the repository only forwards them.
-/

namespace ContrastiveRL

/-- The error a `WandbLogger.__init__` call can raise
(`src/contrastive/wandb_logger.py`, lines 51-83), or that the underlying
`wandb.init` call itself may raise. -/
inductive WandbError where
  | importError      -- `wandb` not installed (WANDB_AVAILABLE is False)
  | runtimeError     -- resulting run is None
  | wandbInitError   -- `wandb.init` itself raised
deriving DecidableEq, Repr

/-- A constructed `WandbLogger` (`src/contrastive/wandb_logger.py`): it keeps
its label and its (non-`None`, by construction) wandb run. -/
structure WandbLogger where
  label : String
  runId : Nat
deriving DecidableEq, Repr

/-- The ambient state `src/default.py` and `src/contrastive/wandb_logger.py`
observe: whether `from contrastive.wandb_logger import WandbLogger` succeeded
(`WANDB_LOGGER_AVAILABLE`), whether `import wandb` succeeded inside
`wandb_logger.py` (`WANDB_AVAILABLE`), the current global `wandb.run`, and
whether a fresh `wandb.init` call would raise. -/
structure WandbEnv where
  moduleAvailable : Bool
  wandbAvailable : Bool
  run : Option Nat
  initRaises : Bool
  freshRunId : Nat
deriving DecidableEq, Repr

/-- `WandbLogger.__init__` (`src/contrastive/wandb_logger.py`, lines 51-83):
raises `ImportError` when wandb is unavailable; when `init_wandb` is true it
initializes a run unless one already exists; raises `RuntimeError` when the
resulting run is `None`.  Returns the logger and the updated wandb state. -/
def WandbLogger.tryInit (env : WandbEnv) (label : String) (initWandb : Bool) :
    Except WandbError (WandbLogger × WandbEnv) :=
  if ¬ env.wandbAvailable then .error .importError
  else
    let attempt : Except WandbError (Option Nat × WandbEnv) :=
      if initWandb then
        match env.run with
        | none =>
            if env.initRaises then .error .wandbInitError
            else .ok (some env.freshRunId, { env with run := some env.freshRunId })
        | some r => .ok (some r, env)
      else .ok (env.run, env)
    match attempt with
    | .error e => .error e
    | .ok (none, _) => .error .runtimeError
    | .ok (some r, env') => .ok ({ label := label, runId := r }, env')

/-- A leaf logging sink of `src/default.py`: the terminal logger, the CSV
logger, or the wandb logger. -/
inductive Sink where
  | terminal (label : String)
  | csvSink (label : String) (dir : String) (addUid : Bool)
  | wandbSink (w : WandbLogger)
deriving DecidableEq, Repr

def Sink.isCsv : Sink → Bool
  | .csvSink _ _ _ => true
  | _ => false

def Sink.isWandb : Sink → Bool
  | .wandbSink _ => true
  | _ => false

def Sink.isTerminal : Sink → Bool
  | .terminal _ => true
  | _ => false

/-- The logger objects `src/default.py` composes: the dispatcher over a sink
list, the None filter, the asynchronous wrapper and the time filter.  The
time filter node carries its timer state (last forwarded time), initially 0. -/
inductive Logger where
  | dispatcher (sinks : List Sink)
  | noneFilter (inner : Logger)
  | asyncLogger (inner : Logger)
  | timeFilter (inner : Logger) (timeDelta : ℚ) (lastTime : ℚ)
deriving DecidableEq, Repr

/-- The sinks a pipeline dispatches to. -/
def Logger.sinksOf : Logger → List Sink
  | .dispatcher sinks => sinks
  | .noneFilter inner => inner.sinksOf
  | .asyncLogger inner => inner.sinksOf
  | .timeFilter inner _ _ => inner.sinksOf

/-- Whether an asynchronous dispatch wrapper occurs anywhere in the chain. -/
def Logger.hasAsync : Logger → Bool
  | .dispatcher _ => false
  | .noneFilter inner => inner.hasAsync
  | .asyncLogger _ => true
  | .timeFilter inner _ _ => inner.hasAsync

/-- Arguments of `make_wandb_logger` (`src/default.py`, lines 69-89); the
`print_fn`, `serialize_fn` and `steps_key` arguments are dropped or opaque in
the embedding (the code deletes `steps_key` and only stores the others). -/
structure MWLArgs where
  label : String
  save_data : Bool
  save_dir : String
  add_uid : Bool
  time_delta : ℚ
  asynchronous : Bool
  use_wandb : Bool
  wandb_project : String
  wandb_entity : Option String
  wandb_group : Option String
  wandb_name : Option String
  wandb_tags : Option (List String)
  wandb_notes : Option String
  wandb_mode : String
  wandb_config : Option (List (String × Nat))
  init_wandb : Bool
deriving DecidableEq, Repr

/-- `make_wandb_logger` (`src/default.py`, lines 69-166): builds the sink list
(terminal; CSV when `save_data`; the wandb sink when `use_wandb`, the wandb
logger module imported, and `WandbLogger(...)` did not raise — any exception
there is caught), then wraps the dispatcher in the None filter, the optional
asynchronous wrapper, and the time filter. -/
def make_wandb_logger (a : MWLArgs) (env : WandbEnv) : Logger × WandbEnv :=
  let sinks : List Sink := [Sink.terminal a.label]
  let sinks := sinks ++
    (if a.save_data then [Sink.csvSink a.label a.save_dir a.add_uid] else [])
  let (sinks, env) :=
    if a.use_wandb then
      if ¬ env.moduleAvailable then (sinks, env)
      else
        match WandbLogger.tryInit env a.label a.init_wandb with
        | .ok (w, env') => (sinks ++ [Sink.wandbSink w], env')
        | .error _ => (sinks, env)
    else (sinks, env)
  let logger := Logger.dispatcher sinks
  let logger := Logger.noneFilter logger
  let logger := if a.asynchronous then Logger.asyncLogger logger else logger
  (Logger.timeFilter logger a.time_delta 0, env)

/-- A metrics record: a Python dictionary as an association list; a `none`
value embeds Python `None`. -/
abbrev Record := List (String × Option Int)

/-- Modelled from the spec: the write behaviour of the decorator chain.  The
decorators' own code (acme's `aggregators.Dispatcher`, `filters.NoneFilter`,
`filters.TimeFilter`, `asynchronous.AsyncLogger`) lives in the external
framework, not in this repository; the spec describes them as "a logging
adapter that fans a metrics dictionary out" to the sinks, "with time-based
and None-filtering decorators", i.e. two decorators "(drop empty records,
throttle by elapsed time)" and "an optional asynchronous dispatch wrapper".
A write at time `t` of record `r` returns the updated logger (the time
filter's timer can advance), the list of `(sink, record)` deliveries, and
whether this (outermost) node forwarded the record inward:
  * the dispatcher delivers the record to each of its sinks;
  * the None filter removes `None`-valued entries and drops the record
    entirely when nothing remains;
  * the asynchronous wrapper forwards every record (it only unblocks the
    caller);
  * the time filter forwards only when at least `timeDelta` seconds have
    elapsed since the last record it forwarded, and then remembers `t`. -/
def Logger.writeAt : Logger → ℚ → Record → Logger × List (Sink × Record) × Bool
  | .dispatcher sinks, _, r =>
      (.dispatcher sinks, sinks.map (fun s => (s, r)), true)
  | .noneFilter inner, t, r =>
      let r' : Record := r.filter (fun kv => kv.2.isSome)
      if r'.isEmpty then (.noneFilter inner, [], false)
      else
        let (inner', out, _) := inner.writeAt t r'
        (.noneFilter inner', out, true)
  | .asyncLogger inner, t, r =>
      let (inner', out, _) := inner.writeAt t r
      (.asyncLogger inner', out, true)
  | .timeFilter inner d last, t, r =>
      if d ≤ t - last then
        let (inner', out, _) := inner.writeAt t r
        (.timeFilter inner' d t, out, true)
      else (.timeFilter inner d last, [], false)

/-- Runs a sequence of timed writes through a logger, collecting for each
write its time, whether the outermost node forwarded it, and its sink
deliveries. -/
def Logger.runWrites : Logger → List (ℚ × Record) →
    Logger × List (ℚ × Bool × List (Sink × Record))
  | l, [] => (l, [])
  | l, (t, r) :: ws =>
      let (l', out, fwd) := l.writeAt t r
      let (l'', rest) := l'.runWrites ws
      (l'', (t, fwd, out) :: rest)

/-- The times at which the outermost node of the pipeline forwarded a
record inward. -/
def forwardedTimes (outs : List (ℚ × Bool × List (Sink × Record))) : List ℚ :=
  (outs.filter (fun x => x.2.1)).map (fun x => x.1)

/-- `WandbLogger.write` (`src/contrastive/wandb_logger.py`, lines 85-109):
prefixes every key with `label/`, extracts the step as the first non-`None`
among the `steps`, `learner_steps`, `actor_steps` entries, converts it to an
integer and passes it to the tracking call; with no such entry no step is
passed.  Returns the prefixed data and the optional step. -/
def WandbLogger.write (w : WandbLogger) (data : Record) :
    List (String × Option Int) × Option Int :=
  let prefixed := data.map (fun kv => (w.label ++ "/" ++ kv.1, kv.2))
  let step := (data.lookup "steps").join
  let step := match step with
    | none => (data.lookup "learner_steps").join
    | some v => some v
  let step := match step with
    | none => (data.lookup "actor_steps").join
    | some v => some v
  (prefixed, step)

/-- Arguments of `make_default_logger` (`src/default.py`, lines 21-31). -/
structure MDLArgs where
  label : String
  save_data : Bool
  save_dir : String
  add_uid : Bool
  time_delta : ℚ
  asynchronous : Bool
deriving DecidableEq, Repr

/-- `make_default_logger` (`src/default.py`, lines 21-66): terminal sink, CSV
sink when `save_data`, dispatcher wrapped by the None filter, the optional
asynchronous wrapper and the time filter. -/
def make_default_logger (a : MDLArgs) : Logger :=
  let sinks : List Sink := [Sink.terminal a.label]
  let sinks := sinks ++
    (if a.save_data then [Sink.csvSink a.label a.save_dir a.add_uid] else [])
  let logger := Logger.dispatcher sinks
  let logger := Logger.noneFilter logger
  let logger := if a.asynchronous then Logger.asyncLogger logger else logger
  Logger.timeFilter logger a.time_delta 0

/-- A value of the wandb metadata dictionary built in
`src/contrastive/agents.py` (lines 43-61); the dictionary mixes strings,
integers, rationals, booleans and an integer tuple. -/
inductive CVal where
  | s (v : String)
  | i (v : Int)
  | q (v : ℚ)
  | b (v : Bool)
  | il (v : List Int)
deriving DecidableEq, Repr

/-- The fields of the contrastive `config` object that
`DistributedContrastive.__init__` (`src/contrastive/agents.py`) reads.
`localFlag` embeds the Python attribute `config.local` (`local` is a Lean
keyword). -/
structure Config where
  max_episode_steps : Int
  obs_dim : Int
  use_wandb : Bool
  alg_name : String
  env_name : String
  max_number_of_steps : Int
  batch_size : Int
  learning_rate : ℚ
  actor_learning_rate : ℚ
  discount : ℚ
  tau : ℚ
  use_td : Bool
  use_cpc : Bool
  repr_dim : Int
  hidden_layer_sizes : List Int
  log_dir : String
  add_uid : Bool
  wandb_project : String
  wandb_entity : Option String
  wandb_group : Option String
  wandb_name : Option String
  wandb_tags : Option (List String)
  wandb_notes : Option String
  wandb_mode : String
  localFlag : Bool
  prefetch_size : Int
  start_index : Int
  end_index : Int
deriving DecidableEq, Repr

/-- The wandb metadata dictionary of `src/contrastive/agents.py`, lines
45-61, in insertion order. -/
def wandbConfigDict (config : Config) (seed : Int) (num_actors : Int) :
    List (String × CVal) :=
  [("algorithm", .s config.alg_name),
   ("environment", .s config.env_name),
   ("seed", .i seed),
   ("max_steps", .i config.max_number_of_steps),
   ("num_actors", .i num_actors),
   ("batch_size", .i config.batch_size),
   ("learning_rate", .q config.learning_rate),
   ("actor_learning_rate", .q config.actor_learning_rate),
   ("discount", .q config.discount),
   ("tau", .q config.tau),
   ("use_td", .b config.use_td),
   ("use_cpc", .b config.use_cpc),
   ("repr_dim", .i config.repr_dim),
   ("hidden_layer_sizes", .il config.hidden_layer_sizes)]

/-- The keyword arguments `functools.partial` binds into the learner
`logger_fn` (`src/contrastive/agents.py`, lines 63-88): a partial application
of `make_wandb_logger`. -/
structure LoggerFnParams where
  label : String
  save_data : Bool
  time_delta : ℚ
  asynchronous : Bool
  save_dir : String
  add_uid : Bool
  steps_key : String
  use_wandb : Bool
  wandb_project : String
  wandb_entity : Option String
  wandb_group : Option String
  wandb_name : Option String
  wandb_tags : Option (List String)
  wandb_notes : Option String
  wandb_mode : String
  wandb_config : Option (List (String × CVal))
  init_wandb : Bool
deriving DecidableEq, Repr

/-- An observer built in `src/contrastive/agents.py`: `SuccessObserver()` or
`DistanceObserver(obs_dim, start_index, end_index)`. -/
inductive Observer where
  | success
  | distance (obs_dim : Int) (start_index : Int) (end_index : Int)
deriving DecidableEq, Repr

/-- An evaluator factory as seen by `DistributedContrastive.__init__`: either
one the caller provided (opaque token), or the default one built with
`distributed_layout.default_evaluator_factory`
(`src/contrastive/agents.py`, lines 90-116); the `policy_factory` lambda is
an opaque constant and is not represented. -/
inductive EvalFactory where
  | provided (id : Nat)
  | defaulted (environment_factory_fixed_goals : Nat) (network_factory : Nat)
      (log_to_bigtable : Bool) (observers : List Observer) (save_dir : String)
      (add_uid : Bool) (use_wandb : Bool) (wandb_project : String)
      (wandb_entity : Option String) (wandb_group : Option String)
      (wandb_mode : String)
deriving DecidableEq, Repr

/-- The keyword arguments `get_default_logger_fn` receives for the actor
logger (`src/contrastive/agents.py`, lines 141-156). -/
structure ActorLoggerParams where
  log_to_bigtable : Bool
  log_every : ℚ
  save_dir : String
  add_uid : Bool
  use_wandb : Bool
  wandb_project : String
  wandb_entity : Option String
  wandb_group : Option String
  wandb_mode : String
deriving DecidableEq, Repr

/-- The arguments of `DistributedContrastive.__init__`
(`src/contrastive/agents.py`, lines 26-38).  The factory arguments are opaque
tokens. -/
structure InitArgs where
  environment_factory : Nat
  environment_factory_fixed_goals : Nat
  network_factory : Nat
  config : Config
  seed : Int
  num_actors : Int
  max_number_of_steps : Option Int
  log_to_bigtable : Bool
  log_every : ℚ
  evaluator_factories : Option (List EvalFactory)
deriving DecidableEq, Repr

/-- The keyword arguments of the `super().__init__` call
(`src/contrastive/agents.py`, lines 126-180).  `builder`, `policy_network`
and `serialize_fn` are framework objects; the builder is represented by the
config and logger parameters it is constructed from. -/
structure SuperArgs where
  seed : Int
  environment_factory : Nat
  environment_factory_fixed_goals : Nat
  network_factory : Nat
  builder_config : Config
  builder_logger_fn : LoggerFnParams
  evaluator_factories : List EvalFactory
  num_actors : Int
  max_number_of_steps : Option Int
  prefetch_size : Int
  log_to_bigtable : Bool
  actor_logger_fn : ActorLoggerParams
  observers : List Observer
  checkpoint_save_dir : String
  checkpoint_add_uid : Bool
  config : Config
deriving DecidableEq, Repr

/-- The log directory string `config.log_dir + config.alg_name + "_" +
config.env_name + "_" + str(seed)` used four times in
`src/contrastive/agents.py`. -/
def saveDirOf (config : Config) (seed : Int) : String :=
  config.log_dir ++ config.alg_name ++ "_" ++ config.env_name ++ "_"
    ++ toString seed

/-- `DistributedContrastive.__init__` (`src/contrastive/agents.py`, lines
26-180) as a function from its arguments to the keyword arguments of the
`super().__init__` call; `none` embeds a failed assertion.  It first asserts
`config.max_episode_steps > 0` and `config.obs_dim > 0`, builds the wandb
metadata dictionary when `config.use_wandb`, binds the learner `logger_fn`,
defaults `evaluator_factories` when the caller passed `None` (to `[]` when
`config.local`), builds the actor observers, and forwards everything to the
base class. -/
def DistributedContrastive.init (a : InitArgs) : Option SuperArgs :=
  if ¬ (a.config.max_episode_steps > 0) then none
  else if ¬ (a.config.obs_dim > 0) then none
  else
    let wandb_config_dict : Option (List (String × CVal)) :=
      if a.config.use_wandb then
        some (wandbConfigDict a.config a.seed a.num_actors)
      else none
    let logger_fn : LoggerFnParams :=
      { label := "learner"
        save_data := a.log_to_bigtable
        time_delta := a.log_every
        asynchronous := true
        save_dir := saveDirOf a.config a.seed
        add_uid := a.config.add_uid
        steps_key := "learner_steps"
        use_wandb := a.config.use_wandb
        wandb_project := a.config.wandb_project
        wandb_entity := a.config.wandb_entity
        wandb_group := a.config.wandb_group
        wandb_name := a.config.wandb_name
        wandb_tags := a.config.wandb_tags
        wandb_notes := a.config.wandb_notes
        wandb_mode := a.config.wandb_mode
        wandb_config := wandb_config_dict
        init_wandb := true }
    let evaluator_factories : List EvalFactory :=
      match a.evaluator_factories with
      | some efs => efs
      | none =>
          let eval_observers : List Observer :=
            [.success,
             .distance a.config.obs_dim a.config.start_index a.config.end_index]
          let efs := [EvalFactory.defaulted a.environment_factory_fixed_goals
            a.network_factory a.log_to_bigtable eval_observers
            (saveDirOf a.config a.seed) a.config.add_uid a.config.use_wandb
            a.config.wandb_project a.config.wandb_entity a.config.wandb_group
            a.config.wandb_mode]
          if a.config.localFlag then [] else efs
    let actor_observers : List Observer :=
      [.success,
       .distance a.config.obs_dim a.config.start_index a.config.end_index]
    some
      { seed := a.seed
        environment_factory := a.environment_factory
        environment_factory_fixed_goals := a.environment_factory_fixed_goals
        network_factory := a.network_factory
        builder_config := a.config
        builder_logger_fn := logger_fn
        evaluator_factories := evaluator_factories
        num_actors := a.num_actors
        max_number_of_steps := a.max_number_of_steps
        prefetch_size := a.config.prefetch_size
        log_to_bigtable := a.log_to_bigtable
        actor_logger_fn :=
          { log_to_bigtable := a.log_to_bigtable
            log_every := a.log_every
            save_dir := saveDirOf a.config a.seed
            add_uid := a.config.add_uid
            use_wandb := a.config.use_wandb
            wandb_project := a.config.wandb_project
            wandb_entity := a.config.wandb_entity
            wandb_group := a.config.wandb_group
            wandb_mode := a.config.wandb_mode }
        observers := actor_observers
        checkpoint_save_dir := saveDirOf a.config a.seed
        checkpoint_add_uid := a.config.add_uid
        config := a.config }

/-! ### Helper definitions for the theorems -/

/-- The wandb portion of the sink list `make_wandb_logger` builds: one wandb
sink exactly when wandb logging was requested, the wandb logger module is
importable and `WandbLogger.__init__` did not raise. -/
def wandbSinkPart (a : MWLArgs) (env : WandbEnv) : List Sink :=
  if a.use_wandb then
    if ¬ env.moduleAvailable then []
    else
      match WandbLogger.tryInit env a.label a.init_wandb with
      | .ok (w, _) => [Sink.wandbSink w]
      | .error _ => []
  else []

/-- The full sink list `make_wandb_logger` builds. -/
def builtSinks (a : MWLArgs) (env : WandbEnv) : List Sink :=
  [Sink.terminal a.label]
    ++ (if a.save_data then [Sink.csvSink a.label a.save_dir a.add_uid] else [])
    ++ wandbSinkPart a env

/-- The optional asynchronous wrapper. -/
def wrapA (asynchronous : Bool) (l : Logger) : Logger :=
  if asynchronous then .asyncLogger l else l

/-- The shape both logger factories produce: a time filter over an optional
asynchronous wrapper over the None filter over the dispatcher. -/
def Logger.pipelineShaped : Logger → Bool
  | .timeFilter (.asyncLogger (.noneFilter (.dispatcher _))) _ _ => true
  | .timeFilter (.noneFilter (.dispatcher _)) _ _ => true
  | _ => false

/-- A sample wandb environment where even the wandb logger module failed to
import. -/
def envNoModule : WandbEnv :=
  { moduleAvailable := false, wandbAvailable := false, run := none,
    initRaises := false, freshRunId := 0 }

/-- A sample wandb environment where everything works. -/
def envFull : WandbEnv :=
  { moduleAvailable := true, wandbAvailable := true, run := none,
    initRaises := false, freshRunId := 7 }

/-- A sample wandb environment where the wandb logger module imported but the
`wandb` package itself is missing, so `WandbLogger.__init__` raises
`ImportError`. -/
def envNoWandbPkg : WandbEnv :=
  { moduleAvailable := true, wandbAvailable := false, run := none,
    initRaises := false, freshRunId := 0 }

/-- Sample `make_wandb_logger` arguments (the Python defaults). -/
def mwlBase : MWLArgs :=
  { label := "learner", save_data := true, save_dir := "logs", add_uid := true,
    time_delta := 1, asynchronous := false, use_wandb := false,
    wandb_project := "contrastive-rl", wandb_entity := none,
    wandb_group := none, wandb_name := none, wandb_tags := none,
    wandb_notes := none, wandb_mode := "online", wandb_config := none,
    init_wandb := false }

/-- A sample contrastive config. -/
def sampleConfig : Config :=
  { max_episode_steps := 50, obs_dim := 10, use_wandb := false,
    alg_name := "contrastive_nce", env_name := "sawyer_push",
    max_number_of_steps := 1000000, batch_size := 256,
    learning_rate := 3 / 10000, actor_learning_rate := 3 / 10000,
    discount := 99 / 100, tau := 5 / 1000, use_td := false, use_cpc := false,
    repr_dim := 64, hidden_layer_sizes := [256, 256], log_dir := "logs/",
    add_uid := true, wandb_project := "contrastive-rl", wandb_entity := none,
    wandb_group := none, wandb_name := none, wandb_tags := none,
    wandb_notes := none, wandb_mode := "online", localFlag := false,
    prefetch_size := 4, start_index := 0, end_index := 1 }

/-- Sample `DistributedContrastive.__init__` arguments. -/
def sampleInit : InitArgs :=
  { environment_factory := 0, environment_factory_fixed_goals := 1,
    network_factory := 2, config := sampleConfig, seed := 0, num_actors := 4,
    max_number_of_steps := none, log_to_bigtable := false, log_every := 10,
    evaluator_factories := none }

/-- Sample `make_default_logger` arguments. -/
def mdlBase : MDLArgs :=
  { label := "evaluator", save_data := true, save_dir := "logs",
    add_uid := true, time_delta := 1, asynchronous := false }

/-- What the None filter over the dispatcher delivers on one record: nothing
when nothing remains after dropping `None` values, otherwise the filtered
record to every sink. -/
def noneFilteredDeliveries (s : List Sink) (r : Record) : List (Sink × Record) :=
  let r' : Record := r.filter (fun kv => kv.2.isSome)
  if r'.isEmpty then [] else s.map (fun sk => (sk, r'))

/-! ### Structural lemmas about the logger factories -/

theorem make_wandb_logger_fst (a : MWLArgs) (env : WandbEnv) :
    (make_wandb_logger a env).1 =
      Logger.timeFilter
        (wrapA a.asynchronous (.noneFilter (.dispatcher (builtSinks a env))))
        a.time_delta 0 := by
  unfold make_wandb_logger builtSinks wandbSinkPart wrapA
  cases hu : a.use_wandb <;> simp
  · cases hm : env.moduleAvailable <;> simp
    cases ht : WandbLogger.tryInit env a.label a.init_wandb <;> simp

theorem make_default_logger_eq (a : MDLArgs) :
    make_default_logger a =
      Logger.timeFilter
        (wrapA a.asynchronous (.noneFilter (.dispatcher
          ([Sink.terminal a.label] ++
            (if a.save_data then [Sink.csvSink a.label a.save_dir a.add_uid]
             else [])))))
        a.time_delta 0 := by
  unfold make_default_logger wrapA
  rfl

theorem sinksOf_wrapA (b : Bool) (l : Logger) :
    (wrapA b l).sinksOf = l.sinksOf := by
  cases b <;> rfl

theorem hasAsync_wrapA (b : Bool) (s : List Sink) :
    (wrapA b (.noneFilter (.dispatcher s))).hasAsync = b := by
  cases b <;> rfl

theorem sinksOf_make_wandb_logger (a : MWLArgs) (env : WandbEnv) :
    (make_wandb_logger a env).1.sinksOf = builtSinks a env := by
  rw [make_wandb_logger_fst]
  simp [Logger.sinksOf, sinksOf_wrapA]

/-! ### C1 -/

/-- C1 (counterexample): called with `save_data=False`, `make_wandb_logger`
puts no CSV sink in the dispatcher's sink list, so the sink list does not
always contain the CSV logger. -/
theorem csv_sink_absent_without_save_data :
    ((make_wandb_logger { mwlBase with save_data := false } envFull).1.sinksOf.any
      Sink.isCsv) = false := by
  rfl

/-- C1 (amended): for every call to `make_wandb_logger`, the dispatcher's
sink list contains the terminal logger, contains a CSV logger exactly when
`save_data` is true, and contains nothing but terminal, CSV and wandb
sinks. -/
theorem make_wandb_logger_sink_inventory (a : MWLArgs) (env : WandbEnv) :
    Sink.terminal a.label ∈ (make_wandb_logger a env).1.sinksOf ∧
    (make_wandb_logger a env).1.sinksOf.any Sink.isCsv = a.save_data ∧
    (make_wandb_logger a env).1.sinksOf.all
      (fun s => s.isTerminal || s.isCsv || s.isWandb) = true := by
  rw [sinksOf_make_wandb_logger]
  unfold builtSinks wandbSinkPart
  refine ⟨by simp, ?_, ?_⟩ <;>
  · cases a.save_data <;> cases a.use_wandb <;>
      simp [Sink.isCsv, Sink.isTerminal, Sink.isWandb] <;>
    cases env.moduleAvailable <;>
      simp [Sink.isCsv, Sink.isTerminal, Sink.isWandb] <;>
    cases WandbLogger.tryInit env a.label a.init_wandb <;>
      simp [Sink.isCsv, Sink.isTerminal, Sink.isWandb]

/-! ### C2 -/

/-- C2: every logger returned by `make_wandb_logger` or
`make_default_logger` is exactly the dispatcher over the built sink list,
wrapped by the None filter and the time filter, with the asynchronous
wrapper in the chain if and only if the `asynchronous` argument is true. -/
theorem logger_pipeline_shape (a : MWLArgs) (env : WandbEnv) (b : MDLArgs) :
    (∃ sinks, (make_wandb_logger a env).1 =
        Logger.timeFilter
          (wrapA a.asynchronous (.noneFilter (.dispatcher sinks)))
          a.time_delta 0) ∧
    (make_wandb_logger a env).1.hasAsync = a.asynchronous ∧
    (∃ sinks, make_default_logger b =
        Logger.timeFilter
          (wrapA b.asynchronous (.noneFilter (.dispatcher sinks)))
          b.time_delta 0) ∧
    (make_default_logger b).hasAsync = b.asynchronous := by
  refine ⟨⟨builtSinks a env, make_wandb_logger_fst a env⟩, ?_,
    ⟨_, make_default_logger_eq b⟩, ?_⟩
  · rw [make_wandb_logger_fst]
    exact hasAsync_wrapA a.asynchronous (builtSinks a env)
  · rw [make_default_logger_eq]
    exact hasAsync_wrapA b.asynchronous _

/-! ### C7 -/

/-- C7 (counterexample): with `use_wandb=True` but the wandb logger module
unavailable, `make_wandb_logger` appends no wandb sink, so requesting
tracking does not guarantee the wandb sink is in the pipeline. -/
theorem wandb_sink_missing_though_requested :
    ({ mwlBase with use_wandb := true } : MWLArgs).use_wandb = true ∧
    ((make_wandb_logger { mwlBase with use_wandb := true }
      envNoModule).1.sinksOf.any Sink.isWandb) = false := by
  exact ⟨rfl, rfl⟩

/-- C7 (amended): the wandb sink is in the pipeline if and only if
`use_wandb` is true, the wandb logger module imported, and the
`WandbLogger` construction succeeded; and when `use_wandb` is false the
wandb state is untouched (wandb is never initialized). -/
theorem wandb_sink_exactly_when_constructed (a : MWLArgs) (env : WandbEnv) :
    ((make_wandb_logger a env).1.sinksOf.any Sink.isWandb =
      (a.use_wandb && env.moduleAvailable &&
        (WandbLogger.tryInit env a.label a.init_wandb).toBool)) ∧
    (a.use_wandb = false → (make_wandb_logger a env).2 = env) := by
  constructor
  · rw [sinksOf_make_wandb_logger]
    unfold builtSinks wandbSinkPart
    cases a.save_data <;> cases a.use_wandb <;>
      simp [Sink.isCsv, Sink.isWandb, Except.toBool] <;>
    cases env.moduleAvailable <;>
      simp [Sink.isWandb, Except.toBool] <;>
    cases WandbLogger.tryInit env a.label a.init_wandb <;>
      simp [Sink.isWandb, Except.toBool]
  · intro hu
    unfold make_wandb_logger
    simp [hu]

/-- C7 witness: a concrete call with `use_wandb=False` leaves the wandb
state untouched and carries no wandb sink. -/
theorem wandb_sink_exactly_when_constructed_witness :
    (make_wandb_logger mwlBase envFull).2 = envFull :=
  (wandb_sink_exactly_when_constructed mwlBase envFull).2 rfl

/-! ### C9 -/

/-- C9: when `use_wandb` is true and the wandb logger module imported but
`WandbLogger.__init__` raises, the exception is caught: `make_wandb_logger`
still returns the full pipeline, whose sinks are only the terminal and
(when `save_data`) CSV loggers. -/
theorem wandb_init_failure_is_caught (a : MWLArgs) (env : WandbEnv)
    (e : WandbError) (hu : a.use_wandb = true)
    (hm : env.moduleAvailable = true)
    (ht : WandbLogger.tryInit env a.label a.init_wandb = .error e) :
    (make_wandb_logger a env).1 =
      Logger.timeFilter
        (wrapA a.asynchronous (.noneFilter (.dispatcher
          ([Sink.terminal a.label] ++
            (if a.save_data then [Sink.csvSink a.label a.save_dir a.add_uid]
             else [])))))
        a.time_delta 0 := by
  rw [make_wandb_logger_fst]
  unfold builtSinks wandbSinkPart
  simp [hu, hm, ht]

/-- C9 witness: concretely, with the wandb package missing the constructor
raises `ImportError`, which is caught, and the returned pipeline dispatches
to the terminal and CSV sinks only. -/
theorem wandb_init_failure_is_caught_witness :
    (make_wandb_logger { mwlBase with use_wandb := true } envNoWandbPkg).1 =
      Logger.timeFilter
        (wrapA ({ mwlBase with use_wandb := true } : MWLArgs).asynchronous
          (.noneFilter (.dispatcher
            ([Sink.terminal "learner"] ++
              (if ({ mwlBase with use_wandb := true } : MWLArgs).save_data then
                [Sink.csvSink "learner" "logs" true] else [])))))
        1 0 :=
  wandb_init_failure_is_caught { mwlBase with use_wandb := true }
    envNoWandbPkg .importError rfl rfl rfl

/-! ### Write-semantics lemmas -/

theorem wrapA_writeAt (b : Bool) (s : List Sink) (t : ℚ) (r : Record) :
    (wrapA b (.noneFilter (.dispatcher s))).writeAt t r =
      (wrapA b (.noneFilter (.dispatcher s)), noneFilteredDeliveries s r,
       b || !(r.filter (fun kv => kv.2.isSome)).isEmpty) := by
  cases b <;>
    simp only [wrapA, Logger.writeAt, noneFilteredDeliveries, Bool.false_or,
      Bool.true_or, if_false, if_true, Bool.not_eq_true'] <;>
  split
  all_goals try simp_all
  all_goals assumption

theorem pipeline_writeAt (b : Bool) (s : List Sink) (d last t : ℚ)
    (r : Record) :
    (Logger.timeFilter (wrapA b (.noneFilter (.dispatcher s))) d last).writeAt
        t r =
      if d ≤ t - last then
        (.timeFilter (wrapA b (.noneFilter (.dispatcher s))) d t,
         noneFilteredDeliveries s r, true)
      else
        (.timeFilter (wrapA b (.noneFilter (.dispatcher s))) d last, [],
         false) := by
  simp only [Logger.writeAt, wrapA_writeAt]

theorem runWrites_pipeline (b : Bool) (s : List Sink) (d : ℚ) :
    ∀ (ws : List (ℚ × Record)) (last : ℚ),
      ∃ last',
        ((Logger.timeFilter (wrapA b (.noneFilter (.dispatcher s))) d
            last).runWrites ws).1 =
          .timeFilter (wrapA b (.noneFilter (.dispatcher s))) d last' := by
  intro ws
  induction ws with
  | nil => exact fun last => ⟨last, rfl⟩
  | cons w ws ih =>
      intro last
      obtain ⟨t, r⟩ := w
      simp only [Logger.runWrites, pipeline_writeAt]
      split
      · simpa using ih t
      · simpa using ih last

theorem pipeline_empty_write (b : Bool) (s : List Sink) (d last t : ℚ)
    (r : Record) (hr : r.filter (fun kv => kv.2.isSome) = []) :
    ((Logger.timeFilter (wrapA b (.noneFilter (.dispatcher s))) d
        last).writeAt t r).2.1 = [] := by
  rw [pipeline_writeAt]
  split <;> simp [noneFilteredDeliveries, hr]

/-! ### C3 -/

/-- C3: for every logger either factory returns — in any state reachable by
a previous sequence of writes — a record that is empty (nothing remains of
it once `None`-valued entries are dropped) is never delivered to any
sink. -/
theorem empty_record_dropped (a : MWLArgs) (env : WandbEnv) (b : MDLArgs)
    (ws : List (ℚ × Record)) (t : ℚ) (r : Record)
    (hr : r.filter (fun kv => kv.2.isSome) = []) :
    ((((make_wandb_logger a env).1.runWrites ws).1).writeAt t r).2.1 = [] ∧
    ((((make_default_logger b).runWrites ws).1).writeAt t r).2.1 = [] := by
  constructor
  · rw [make_wandb_logger_fst]
    obtain ⟨last', hl⟩ :=
      runWrites_pipeline a.asynchronous (builtSinks a env) a.time_delta ws 0
    rw [hl]
    exact pipeline_empty_write _ _ _ _ _ _ hr
  · rw [make_default_logger_eq]
    obtain ⟨last', hl⟩ := runWrites_pipeline b.asynchronous _ b.time_delta ws 0
    rw [hl]
    exact pipeline_empty_write _ _ _ _ _ _ hr

/-- C3 witness: concretely, writing the empty dictionary to freshly built
loggers delivers nothing to any sink. -/
theorem empty_record_dropped_witness :
    ((((make_wandb_logger mwlBase envFull).1.runWrites []).1).writeAt 5
      []).2.1 = [] ∧
    ((((make_default_logger mdlBase).runWrites []).1).writeAt 5 []).2.1 =
      [] :=
  empty_record_dropped mwlBase envFull mdlBase [] 5 [] rfl

/-! ### C4 -/

theorem pipeline_forwarded_chain (b : Bool) (s : List Sink) (d : ℚ) :
    ∀ (ws : List (ℚ × Record)) (last : ℚ),
      (∀ t' ∈ (forwardedTimes
          (((Logger.timeFilter (wrapA b (.noneFilter (.dispatcher s))) d
              last).runWrites ws).2)).head?, d ≤ t' - last) ∧
      List.Chain' (fun x y => d ≤ y - x)
        (forwardedTimes
          (((Logger.timeFilter (wrapA b (.noneFilter (.dispatcher s))) d
              last).runWrites ws).2)) := by
  intro ws
  induction ws with
  | nil => intro last; simp [Logger.runWrites, forwardedTimes]
  | cons w ws ih =>
      intro last
      obtain ⟨t, r⟩ := w
      by_cases hd : d ≤ t - last
      · simp only [Logger.runWrites, pipeline_writeAt, if_pos hd,
          forwardedTimes, List.filter_cons_of_pos, List.map_cons]
        constructor
        · intro t' ht'
          simp only [List.head?_cons, Option.mem_def, Option.some.injEq]
            at ht'
          subst ht'
          exact hd
        · exact List.chain'_cons'.mpr ⟨(ih t).1, (ih t).2⟩
      · simp only [Logger.runWrites, pipeline_writeAt, if_neg hd,
          forwardedTimes, List.filter_cons_of_neg, List.map_cons]
        exact ih last

/-- C4: for every logger either factory returns with throttle interval
`time_delta` and every sequence of timed writes, the times at which the
throttle forwards a record toward the sinks are at least `time_delta`
apart between consecutive forwards; and any write arriving less than
`time_delta` after the last forwarded one is dropped (nothing delivered,
nothing forwarded). -/
theorem throttle_min_gap (a : MWLArgs) (env : WandbEnv) (b : MDLArgs)
    (ws : List (ℚ × Record)) :
    List.Chain' (fun x y => a.time_delta ≤ y - x)
      (forwardedTimes (((make_wandb_logger a env).1).runWrites ws).2) ∧
    List.Chain' (fun x y => b.time_delta ≤ y - x)
      (forwardedTimes ((make_default_logger b).runWrites ws).2) ∧
    ∀ (inner : Logger) (last t : ℚ) (r : Record),
      t - last < a.time_delta →
        ((Logger.timeFilter inner a.time_delta last).writeAt t r).2 =
          ([], false) := by
  refine ⟨?_, ?_, ?_⟩
  · rw [make_wandb_logger_fst]
    exact (pipeline_forwarded_chain a.asynchronous (builtSinks a env)
      a.time_delta ws 0).2
  · rw [make_default_logger_eq]
    exact (pipeline_forwarded_chain b.asynchronous _ b.time_delta ws 0).2
  · intro inner last t r hlt
    simp [Logger.writeAt, not_le.mpr hlt]

/-- C4 witness: concretely, a write half a second after the last forwarded
one is dropped by a throttle with a one-second interval, and a concrete run
forwards with the required gaps. -/
theorem throttle_min_gap_witness :
    List.Chain' (fun x y => mwlBase.time_delta ≤ y - x)
      (forwardedTimes
        (((make_wandb_logger mwlBase envFull).1).runWrites
          [(1, [("loss", some 3)]), (3 / 2, [("loss", some 4)])]).2) ∧
    ((Logger.timeFilter (Logger.dispatcher []) mwlBase.time_delta 0).writeAt
      (1 / 2) []).2 = ([], false) :=
  ⟨(throttle_min_gap mwlBase envFull mdlBase
      [(1, [("loss", some 3)]), (3 / 2, [("loss", some 4)])]).1,
   (throttle_min_gap mwlBase envFull mdlBase []).2.2 (Logger.dispatcher [])
      0 (1 / 2) [] (by norm_num [mwlBase])⟩

/-! ### C8 -/

/-- C8: `WandbLogger.write` logs every key `k` of the input under the
prefixed key `label/k` (and nothing else), and the step passed to the
tracking call is the first non-`None` value found under `steps`,
`learner_steps`, `actor_steps` in the unprefixed input; when no such value
exists, no step is passed. -/
theorem wandb_write_prefix_and_step (w : WandbLogger) (data : Record) :
    ((w.write data).1.map Prod.fst =
        data.map (fun kv => w.label ++ "/" ++ kv.1)) ∧
    (∀ kv ∈ data, (w.label ++ "/" ++ kv.1, kv.2) ∈ (w.write data).1) ∧
    ((w.write data).2 =
      (((data.lookup "steps").join.or
        ((data.lookup "learner_steps").join)).or
        ((data.lookup "actor_steps").join))) ∧
    ((data.lookup "steps").join = none →
      (data.lookup "learner_steps").join = none →
      (data.lookup "actor_steps").join = none →
      (w.write data).2 = none) := by
  have hstep : (w.write data).2 =
      (((data.lookup "steps").join.or
        ((data.lookup "learner_steps").join)).or
        ((data.lookup "actor_steps").join)) := by
    simp only [WandbLogger.write]
    cases (data.lookup "steps").join <;>
      cases (data.lookup "learner_steps").join <;>
        cases (data.lookup "actor_steps").join <;> rfl
  refine ⟨?_, ?_, hstep, ?_⟩
  · simp [WandbLogger.write]
  · intro kv hkv
    simp only [WandbLogger.write]
    exact List.mem_map.mpr ⟨kv, hkv, rfl⟩
  · intro h1 h2 h3
    rw [hstep, h1, h2, h3]
    rfl

/-- C8 witness: a concrete write with label `learner` prefixes the key
`loss` to `learner/loss`, and with no step key present passes no step. -/
theorem wandb_write_prefix_and_step_witness :
    ("learner/loss", some (3 : Int)) ∈
      (({ label := "learner", runId := 7 } : WandbLogger).write
        [("loss", some 3)]).1 ∧
    (({ label := "learner", runId := 7 } : WandbLogger).write
      [("loss", some 3)]).2 = none :=
  ⟨(wandb_write_prefix_and_step { label := "learner", runId := 7 }
      [("loss", some 3)]).2.1 ("loss", some 3) (by simp),
   (wandb_write_prefix_and_step { label := "learner", runId := 7 }
      [("loss", some 3)]).2.2.2 rfl rfl rfl⟩

/-! ### C10 -/

/-- C10: `DistributedContrastive.__init__` succeeds exactly when
`config.max_episode_steps > 0` and `config.obs_dim > 0`: its two leading
assertions fail on any config violating them, and under the preconditions
the assertion-failure branches are unreachable. -/
theorem init_assertions (a : InitArgs) :
    (DistributedContrastive.init a).isSome ↔
      (0 < a.config.max_episode_steps ∧ 0 < a.config.obs_dim) := by
  by_cases h1 : a.config.max_episode_steps > 0 <;>
    by_cases h2 : a.config.obs_dim > 0 <;>
      simp [DistributedContrastive.init, h1, h2]

/-! ### C5 -/

/-- C5 (counterexample): the assembler does have control flow of its own,
and does not forward all of its arguments unchanged: on a config with
`max_episode_steps = 0` it fails instead of forwarding, and with
`evaluator_factories = None` the forwarded evaluator factory list depends
on `config.local` (empty when local, a built default otherwise) rather
than being the argument. -/
theorem init_has_control_flow :
    DistributedContrastive.init
      { sampleInit with
        config := { sampleConfig with max_episode_steps := 0 } } = none ∧
    sampleInit.evaluator_factories = none ∧
    (DistributedContrastive.init
      { sampleInit with
        config := { sampleConfig with localFlag := true } }).map
      SuperArgs.evaluator_factories = some [] ∧
    (DistributedContrastive.init sampleInit).map
        SuperArgs.evaluator_factories ≠
      (DistributedContrastive.init
        { sampleInit with
          config := { sampleConfig with localFlag := true } }).map
        SuperArgs.evaluator_factories := by
  refine ⟨rfl, rfl, rfl, ?_⟩
  decide

/-- C5 (amended): apart from its two assertions, the optional wandb
metadata dictionary, and the defaulting of `evaluator_factories` when the
caller passes `None` (to the built default list, empty when
`config.local`), `DistributedContrastive.__init__` only forwards: every
other argument reaches the base constructor unchanged, and a caller-given
evaluator factory list is forwarded as is. -/
theorem init_forwards_arguments (a : InitArgs) (sa : SuperArgs)
    (h : DistributedContrastive.init a = some sa) :
    sa.seed = a.seed ∧
    sa.environment_factory = a.environment_factory ∧
    sa.environment_factory_fixed_goals =
      a.environment_factory_fixed_goals ∧
    sa.network_factory = a.network_factory ∧
    sa.num_actors = a.num_actors ∧
    sa.max_number_of_steps = a.max_number_of_steps ∧
    sa.log_to_bigtable = a.log_to_bigtable ∧
    sa.config = a.config ∧
    sa.builder_config = a.config ∧
    sa.prefetch_size = a.config.prefetch_size ∧
    (∀ efs, a.evaluator_factories = some efs →
      sa.evaluator_factories = efs) := by
  unfold DistributedContrastive.init at h
  split at h
  · exact absurd h (by simp)
  · split at h
    · exact absurd h (by simp)
    · obtain rfl := (Option.some.inj h).symm
      refine ⟨rfl, rfl, rfl, rfl, rfl, rfl, rfl, rfl, rfl, rfl, ?_⟩
      intro efs hefs
      simp [hefs]

/-- C5 witness: a concrete successful construction forwards the seed and
the config unchanged. -/
theorem init_forwards_arguments_witness :
    (DistributedContrastive.init sampleInit).map SuperArgs.seed =
      some sampleInit.seed ∧
    (DistributedContrastive.init sampleInit).map SuperArgs.config =
      some sampleInit.config := by
  obtain ⟨sa, hsa⟩ :
      ∃ sa, DistributedContrastive.init sampleInit = some sa := ⟨_, rfl⟩
  have hmain := init_forwards_arguments sampleInit sa hsa
  rw [hsa]
  exact ⟨congrArg some hmain.1, congrArg some hmain.2.2.2.2.2.2.2.1⟩

/-! ### C6 -/

/-- C6: on a successful construction the wandb metadata dictionary is built
if and only if `config.use_wandb`, it carries exactly the fourteen keys
`algorithm`, `environment`, `seed`, `max_steps`, `num_actors`,
`batch_size`, `learning_rate`, `actor_learning_rate`, `discount`, `tau`,
`use_td`, `use_cpc`, `repr_dim`, `hidden_layer_sizes` taken from the
config and constructor arguments, and otherwise `None` is forwarded as the
`wandb_config` of the learner logger factory. -/
theorem wandb_metadata_iff (a : InitArgs) (sa : SuperArgs)
    (h : DistributedContrastive.init a = some sa) :
    (a.config.use_wandb = true →
      sa.builder_logger_fn.wandb_config =
        some (wandbConfigDict a.config a.seed a.num_actors)) ∧
    (a.config.use_wandb = false →
      sa.builder_logger_fn.wandb_config = none) ∧
    (wandbConfigDict a.config a.seed a.num_actors).map Prod.fst =
      ["algorithm", "environment", "seed", "max_steps", "num_actors",
       "batch_size", "learning_rate", "actor_learning_rate", "discount",
       "tau", "use_td", "use_cpc", "repr_dim", "hidden_layer_sizes"] := by
  unfold DistributedContrastive.init at h
  split at h
  · exact absurd h (by simp)
  · split at h
    · exact absurd h (by simp)
    · obtain rfl := (Option.some.inj h).symm
      refine ⟨?_, ?_, rfl⟩ <;> intro hw <;> simp [hw]

/-- C6 witness: a concrete construction with `use_wandb=True` forwards the
metadata dictionary, and one with `use_wandb=False` forwards `None`. -/
theorem wandb_metadata_iff_witness :
    (DistributedContrastive.init
      { sampleInit with
        config := { sampleConfig with use_wandb := true } }).map
      (fun sa => sa.builder_logger_fn.wandb_config) =
      some (some (wandbConfigDict
        { sampleConfig with use_wandb := true } 0 4)) ∧
    (DistributedContrastive.init sampleInit).map
      (fun sa => sa.builder_logger_fn.wandb_config) = some none := by
  constructor
  · obtain ⟨sa, hsa⟩ :
        ∃ sa, DistributedContrastive.init
          { sampleInit with
            config := { sampleConfig with use_wandb := true } } = some sa :=
      ⟨_, rfl⟩
    have hmain := (wandb_metadata_iff _ sa hsa).1 rfl
    rw [hsa]
    exact congrArg some hmain
  · obtain ⟨sa, hsa⟩ :
        ∃ sa, DistributedContrastive.init sampleInit = some sa := ⟨_, rfl⟩
    have hmain := (wandb_metadata_iff _ sa hsa).2.1 rfl
    rw [hsa]
    exact congrArg some hmain

end ContrastiveRL
